import Mathlib

/-!
Verification of the validation and region-of-interest geometry subsystem of
the `movement` animal-tracking toolkit, against its natural-language
specification.

The Python sources embedded here are `movement/io/validators.py` (dataset
validation) and `movement/roi/base.py` (regions of interest).  Python runtime
values that can reach the validators (numpy arrays, strings, iterables,
numbers, `None`) are modelled by small inductive types; Python exceptions are
modelled by the `PyErr` type together with `Except`; machine floats are
modelled by exact rationals (for the validators) and by real numbers (for the
geometry), so all statements are about exact arithmetic.
-/

/-- Equality of `Except` results is decidable when it is on both sides; used
to evaluate the validators on concrete inputs. -/
instance {ε α : Type} [DecidableEq ε] [DecidableEq α] :
    DecidableEq (Except ε α) := fun x y =>
  match x, y with
  | .ok a, .ok b =>
      if h : a = b then .isTrue (by rw [h])
      else .isFalse (fun hh => h (by cases hh; rfl))
  | .error a, .error b =>
      if h : a = b then .isTrue (by rw [h])
      else .isFalse (fun hh => h (by cases hh; rfl))
  | .ok _, .error _ => .isFalse (fun hh => by cases hh)
  | .error _, .ok _ => .isFalse (fun hh => by cases hh)

/-- Model of the Python exceptions raised by the validators.  `log_error(E, msg)`
in the source logs and returns the exception `E(msg)`; only the exception class
and its message are observable to callers, which is what we keep. -/
inductive PyErr where
  | valueError (msg : String)
  | typeError (msg : String)
  deriving DecidableEq, Repr

/-- Model of a numpy array as seen by the validators: only the shape tuple and
the dtype are ever inspected by the validation code (the element data never
are), so an array is modelled by those two observables.  `ndim` is the length
of `shape`; `shape[-1]` is the last entry. -/
structure NDArray where
  shape : List Nat
  dtype : String
  deriving DecidableEq, Repr

/-- Model of an arbitrary Python object passed where an array is expected:
either an actual numpy array, or some other object, carried with the string
rendering of its type (what the source interpolates into error messages). -/
inductive PyObj where
  | ndarray (a : NDArray)
  | other (descr : String)
  deriving DecidableEq, Repr

/-- Model of the Python argument for `individual_names` / `keypoint_names`:
`None`, a single string, an iterable (whose items are rendered with `str`, so
they are modelled as strings already), or a non-iterable non-string object. -/
inductive PyNames where
  | noneN
  | strN (s : String)
  | iterN (items : List String)
  | otherN (descr : String)
  deriving DecidableEq, Repr

/-- Model of the Python argument for `fps`.  `float(x)` succeeds exactly on
numbers and numeric strings (modelled as `convertible x` with `x` the exact
value) and raises on anything else (modelled as `nonconvertible`, carrying the
string rendering of the offending value). -/
inductive PyFps where
  | noneF
  | convertible (x : ℚ)
  | nonconvertible (descr : String)
  deriving DecidableEq, Repr

/-- `_list_of_str` (validators.py lines 206-219): a single string is coerced to
a one-element list (with a warning); any other iterable becomes the list of
`str(item)`; anything else raises a `ValueError` (note: a `ValueError`, even
though the docstring of the spec calls this situation a type error). -/
def list_of_str : PyNames → Except PyErr (Option (List String))
  | .noneN => .ok none
  | .strN s => .ok (some [s])
  | .iterN items => .ok (some items)
  | .otherN d =>
      .error (.valueError s!"Invalid value ({d}). Expected a list of strings.")

/-- `_ensure_type_ndarray` (validators.py lines 222-227): raises `ValueError`
(not `TypeError`) when the value is not a numpy array. -/
def ensure_type_ndarray : PyObj → Except PyErr NDArray
  | .ndarray a => .ok a
  | .other d =>
      .error (.valueError s!"Expected a numpy array, but got {d}.")

/-- `_set_fps_to_none_if_invalid` (validators.py lines 230-238): a non-positive
fps is replaced by `None` (with a warning); anything else passes through. -/
def set_fps_to_none_if_invalid : Option ℚ → Option ℚ
  | some x => if x ≤ 0 then none else some x
  | none => none

/-- The attrs converter pipeline for the `fps` field:
`converters.pipe(converters.optional(float), _set_fps_to_none_if_invalid)`.
`float()` raises on non-convertible input; `None` is passed through. -/
def fps_converter : PyFps → Except PyErr (Option ℚ)
  | .noneF => .ok none
  | .convertible x => .ok (set_fps_to_none_if_invalid (some x))
  | .nonconvertible d =>
      .error (.valueError s!"could not convert string to float: {d}")

/-- `_validate_list_length` (validators.py lines 241-250): raises `ValueError`
when a non-`None` list does not have the expected length. -/
def validate_list_length (name : String) (value : Option (List String))
    (expected : Nat) : Except PyErr Unit :=
  match value with
  | some l =>
      let got := l.length
      if got ≠ expected then
        .error (.valueError
          s!"Expected {name} to have length {expected}, but got {got}.")
      else .ok ()
  | none => .ok ()

/-- `ValidPosesDataset._validate_position_array` (validators.py lines
305-319): the value must be a numpy array with exactly 4 dimensions and a last
axis of size 2 or 3.  No dtype check is performed. -/
def validate_position_array (v : PyObj) : Except PyErr NDArray := do
  let a ← ensure_type_ndarray v
  if a.shape.length ≠ 4 then
    .error (.valueError
      s!"Expected position_array to have 4 dimensions, but got another count.")
  else if ¬(a.shape.getLast? = some 2 ∨ a.shape.getLast? = some 3) then
    .error (.valueError
      s!"Expected position_array to have 2 or 3 spatial dimensions.")
  else
    .ok a

/-- `_validate_confidence_array` (validators.py lines 321-331 and 516-530,
identical in both dataset classes): if provided, the value must be a numpy
array of shape `position_array.shape[:-1]`. -/
def validate_confidence_array (pos : NDArray) :
    Option PyObj → Except PyErr (Option NDArray)
  | none => .ok none
  | some v => do
      let c ← ensure_type_ndarray v
      if c.shape ≠ pos.shape.dropLast then
        .error (.valueError
          s!"Expected confidence_array to have the shape of position minus its last axis.")
      else .ok (some c)

/-- `ValidPosesDataset._validate_individual_names` (validators.py lines
333-341): when `source_software == "LightningPose"` the provided list must
have length 1, otherwise it must have length `position_array.shape[1]`.
`None` passes both checks (defaults are filled in later). -/
def validate_individual_names_poses (source_software : Option String)
    (pos : NDArray) (value : Option (List String)) : Except PyErr Unit :=
  if source_software = some "LightningPose" then
    validate_list_length "individual_names" value 1
  else
    validate_list_length "individual_names" value (pos.shape.getD 1 0)

/-- The validated poses dataset after `__attrs_post_init__` has filled in the
defaults: every field is populated. -/
structure ValidPosesDataset where
  position_array : NDArray
  confidence_array : NDArray
  individual_names : List String
  keypoint_names : List String
  fps : Option ℚ
  source_software : Option String
  deriving DecidableEq, Repr

/-- The raw keyword arguments of `ValidPosesDataset(...)`, in field order. -/
structure PosesArgs where
  position_array : PyObj
  confidence_array : Option PyObj
  individual_names : PyNames
  keypoint_names : PyNames
  fps : PyFps
  source_software : Option String
  deriving DecidableEq, Repr

/-- Construction of `ValidPosesDataset` (validators.py lines 253-372), i.e.
the `validate_poses` operation of the spec.  attrs runs the field converters
in field-definition order while assigning, then runs all validators in
field-definition order, then `__attrs_post_init__` fills the defaults:
a NaN-filled float32 confidence array of shape `position.shape[:-1]`, and
generated names `individual_i` / `keypoint_i`. -/
def validate_poses (a : PosesArgs) : Except PyErr ValidPosesDataset := do
  -- converters, in field definition order
  let ind ← list_of_str a.individual_names
  let kp ← list_of_str a.keypoint_names
  let fps ← fps_converter a.fps
  -- validators, in field definition order
  let pos ← validate_position_array a.position_array
  let conf ← validate_confidence_array pos a.confidence_array
  let _ ← validate_individual_names_poses a.source_software pos ind
  let _ ← validate_list_length "keypoint_names" kp (pos.shape.getD 2 0)
  -- __attrs_post_init__ defaults
  let confFinal := conf.getD { shape := pos.shape.dropLast, dtype := "float32" }
  let indFinal := ind.getD
    ((List.range (pos.shape.getD 1 0)).map fun i => s!"individual_{i}")
  let kpFinal := kp.getD
    ((List.range (pos.shape.getD 2 0)).map fun i => s!"keypoint_{i}")
  .ok {
    position_array := pos
    confidence_array := confFinal
    individual_names := indFinal
    keypoint_names := kpFinal
    fps := fps
    source_software := a.source_software
  }

example :
    validate_poses {
      position_array := .ndarray { shape := [7, 2, 3, 2], dtype := "float64" }
      confidence_array := none
      individual_names := .noneN
      keypoint_names := .noneN
      fps := .noneF
      source_software := none
    } = .ok {
      position_array := { shape := [7, 2, 3, 2], dtype := "float64" }
      confidence_array := { shape := [7, 2, 3], dtype := "float32" }
      individual_names := ["individual_0", "individual_1"]
      keypoint_names := ["keypoint_0", "keypoint_1", "keypoint_2"]
      fps := none
      source_software := none
    } := by rfl

/-- `ValidBboxesDataset._validate_position_and_shape_arrays` (validators.py
lines 436-465): the value must be a numpy array whose last axis has size
exactly 2.  The stricter 3-dimensions check is commented out in the source, so
the number of dimensions is unconstrained.  Indexing `shape[-1]` on a 0-d
array raises a Python `IndexError`, modelled as a `typeError`-free third kind
is unnecessary for the claims, so it is folded into `typeError`. -/
def validate_position_and_shape_arrays (v : PyObj) : Except PyErr NDArray := do
  let a ← ensure_type_ndarray v
  match a.shape.getLast? with
  | none => .error (.typeError "tuple index out of range")
  | some n =>
      if n ≠ 2 then
        .error (.valueError
          s!"Expected the array to have 2 spatial coordinates, but got {n}.")
      else .ok a

/-- The integer denoted by a list of decimal digit characters (what Python
`int(...)` returns on the digits captured by the regex group). -/
def digitsToNat (l : List Char) : Nat :=
  l.foldl (fun n c => 10 * n + (c.toNat - 48)) 0

/-- `ValidBboxesDataset._check_ID_str_and_extract_int` (validators.py lines
560-577): the string must fully match `id_` followed by one or more digits
(`re.fullmatch` with group `(d+)` after the literal `id_`); on a match the
captured digits are cast to an integer, otherwise the result is `None`. -/
def check_ID_str_and_extract_int (s : String) : Option Nat :=
  match s.data with
  | 'i' :: 'd' :: '_' :: rest =>
      if !rest.isEmpty && rest.all Char.isDigit then some (digitsToNat rest)
      else none
  | _ => none

/-- `ValidBboxesDataset._validate_individual_names` (validators.py lines
468-496): length check against `position_array.shape[1]`, then uniqueness
(`len(value) != len(set(value))`), then the `id_<digits>` pattern check for
every name.  Note that when `value` is `None` the source evaluates
`len(None)`, which raises a Python `TypeError`. -/
def validate_individual_names_bboxes (pos : NDArray)
    (value : Option (List String)) : Except PyErr Unit := do
  let _ ← validate_list_length "individual_names" value (pos.shape.getD 1 0)
  match value with
  | none => .error (.typeError "object of type NoneType has no len()")
  | some l =>
      if l.length ≠ l.dedup.length then
        .error (.valueError
          "individual_names passed to the dataset are not unique.")
      else if l.any (fun s => (check_ID_str_and_extract_int s).isNone) then
        .error (.valueError
          "At least one ID does not fit the expected format.")
      else .ok ()

/-- The validated bounding-boxes dataset after defaults are filled in. -/
structure ValidBboxesDataset where
  position_array : NDArray
  shape_array : NDArray
  confidence_array : NDArray
  individual_names : List String
  fps : Option ℚ
  source_software : Option String
  deriving DecidableEq, Repr

/-- The raw keyword arguments of `ValidBboxesDataset(...)`, in field order. -/
structure BboxesArgs where
  position_array : PyObj
  shape_array : PyObj
  confidence_array : Option PyObj
  individual_names : PyNames
  fps : PyFps
  source_software : Option String
  deriving DecidableEq, Repr

/-- Construction of `ValidBboxesDataset` (validators.py lines 375-577), i.e.
the `validate_bboxes` operation of the spec: converters in field order, then
validators in field order, then `__attrs_post_init__` defaults (NaN-filled
confidence; 1-based generated names `id_1 .. id_N`). -/
def validate_bboxes (a : BboxesArgs) : Except PyErr ValidBboxesDataset := do
  -- converters, in field definition order
  let ind ← list_of_str a.individual_names
  let fps ← fps_converter a.fps
  -- validators, in field definition order
  let pos ← validate_position_and_shape_arrays a.position_array
  let shp ← validate_position_and_shape_arrays a.shape_array
  let conf ← validate_confidence_array pos a.confidence_array
  let _ ← validate_individual_names_bboxes pos ind
  -- __attrs_post_init__ defaults
  let confFinal := conf.getD { shape := pos.shape.dropLast, dtype := "float32" }
  let indFinal := ind.getD
    ((List.range (pos.shape.getD 1 0)).map fun i => s!"id_{i + 1}")
  .ok {
    position_array := pos
    shape_array := shp
    confidence_array := confFinal
    individual_names := indFinal
    fps := fps
    source_software := a.source_software
  }

example :
    validate_bboxes {
      position_array := .ndarray { shape := [4, 2, 2], dtype := "float64" }
      shape_array := .ndarray { shape := [4, 2, 2], dtype := "float64" }
      confidence_array := none
      individual_names := .iterN ["id_1", "id_2"]
      fps := .noneF
      source_software := none
    } = .ok {
      position_array := { shape := [4, 2, 2], dtype := "float64" }
      shape_array := { shape := [4, 2, 2], dtype := "float64" }
      confidence_array := { shape := [4, 2], dtype := "float32" }
      individual_names := ["id_1", "id_2"]
      fps := none
      source_software := none
    } := by decide

example : check_ID_str_and_extract_int "id_3" = some 3 := by decide
example : check_ID_str_and_extract_int "id_01x" = none := by decide
example : check_ID_str_and_extract_int "box_1" = none := by decide

/-- The geometric representation stored by a region of interest
(roi/base.py lines 161-168): a `shapely.Polygon` with its shell and holes, a
`shapely.LinearRing`, or a `shapely.LineString`, each recorded with the
coordinates it was built from.  Coordinates are exact rationals. -/
inductive ShapeRep where
  | polygon (shell : List (ℚ × ℚ)) (holes : List (List (ℚ × ℚ)))
  | linearRing (coords : List (ℚ × ℚ))
  | lineString (coords : List (ℚ × ℚ))
  deriving DecidableEq, Repr

/-- `BaseRegionOfInterest.__default_name` (roi/base.py line 61). -/
def default_region_name : String := "Un-named region"

/-- A constructed region of interest: the stored `_name` (possibly `None` or
empty) and the wrapped geometry `_shapely_geometry`. -/
structure RoI where
  nameOpt : Option String
  geometry : ShapeRep
  deriving DecidableEq, Repr

/-- `BaseRegionOfInterest.name` (roi/base.py lines 100-103):
`self._name if self._name else self.__default_name`.  Python truthiness makes
both `None` and the empty string fall back to the default name. -/
def RoI.name (r : RoI) : String :=
  match r.nameOpt with
  | some s => if s.isEmpty then default_region_name else s
  | none => default_region_name

/-- `BaseRegionOfInterest.__init__` (roi/base.py lines 110-168): the point
count must be at least `dimensions + 1`; `dimensions` must be 1 or 2 (checked
second, in the `elif`); a closed 1D region needs at least 3 points.  Then the
corresponding shapely object is built: a polygon for 2D (holes kept, `closed`
ignored), a linear ring or line string for 1D. -/
def roi_init (points : List (ℚ × ℚ)) (dimensions : Nat) (closed : Bool)
    (holes : List (List (ℚ × ℚ))) (name : Option String) :
    Except PyErr RoI :=
  if points.length < dimensions + 1 then
    .error (.valueError
      s!"Need at least {dimensions + 1} points to define a {dimensions}D region (got {points.length}).")
  else if dimensions < 1 ∨ dimensions > 2 then
    .error (.valueError
      s!"Only regions of interest of dimension 1 or 2 are supported (requested {dimensions})")
  else if dimensions = 1 ∧ points.length < 3 ∧ closed then
    .error (.valueError "Cannot create a loop from a single line segment.")
  else if dimensions = 2 then
    .ok { nameOpt := name, geometry := .polygon points holes }
  else
    .ok { nameOpt := name
          geometry := if closed then .linearRing points else .lineString points }

example :
    roi_init [(0, 0), (0, 10), (10, 10), (10, 0)] 2 false [] none
      = .ok { nameOpt := none
              geometry := .polygon [(0, 0), (0, 10), (10, 10), (10, 0)] [] } := by
  decide

example :
    roi_init [(0, 0), (1, 1)] 1 true [] none
      = .error (.valueError "Cannot create a loop from a single line segment.") := by
  decide

/-- Model of a shapely geometry as observed by `contains_point`
(roi/base.py lines 259-272): the only operations used are membership of a
point (`Geometry.contains`, which for shapely is membership of the interior),
the boundary geometry (`Geometry.boundary`), and emptiness.  A geometry is
therefore modelled by its membership test together with its (finite) chain of
boundaries, ending in the empty geometry. -/
inductive Geom where
  | empty
  | node (containsB : ℚ × ℚ → Bool) (boundary : Geom)

/-- `Geometry.contains`: interior membership; the empty geometry contains
nothing. -/
def geomContains : Geom → (ℚ × ℚ) → Bool
  | .empty, _ => false
  | .node c _, p => c p

/-- `Geometry.boundary`; the boundary of the empty geometry is empty. -/
def geomBoundary : Geom → Geom
  | .empty => .empty
  | .node _ b => b

/-- The `while not current_region.boundary.is_empty` loop of `contains_point`
(roi/base.py lines 267-271): descend to the boundary and or-in its
containment, until the boundary is empty. -/
def containsLoop (p : ℚ × ℚ) : Geom → Bool → Bool
  | .empty, acc => acc
  | .node _ b, acc =>
      match b with
      | .empty => acc
      | .node c b2 => containsLoop p (.node c b2) (acc || c p)

/-- `BaseRegionOfInterest.contains_point` (roi/base.py lines 234-272):
interior membership, or-ed - when `include_boundary` is set - with membership
at every level of the boundary hierarchy. -/
def contains_point (g : Geom) (p : ℚ × ℚ) (include_boundary : Bool) : Bool :=
  let point_is_inside := geomContains g p
  if include_boundary then containsLoop p g point_is_inside
  else point_is_inside

/-- Membership of `p` at some level of the boundary hierarchy of `g` (the
geometry itself, its boundary, the boundary of that boundary, ...). -/
def hierarchyContains : Geom → (ℚ × ℚ) → Bool
  | .empty, _ => false
  | .node c b, p => c p || hierarchyContains b p

/-- Interior membership for the shapely polygon with shell
`(0,0),(0,10),(10,10),(10,0)`: `Polygon.contains` holds exactly on the open
square, boundary excluded. -/
def squareInteriorB (p : ℚ × ℚ) : Bool :=
  decide (0 < p.1) && decide (p.1 < 10) && decide (0 < p.2) && decide (p.2 < 10)

/-- Membership for the boundary `LinearRing` of the same polygon:
`LinearRing.contains` holds on every point of the closed curve (a closed ring
has no endpoints, so no point of the curve is excluded). -/
def squareRingB (p : ℚ × ℚ) : Bool :=
  ((decide (p.1 = 0) || decide (p.1 = 10)) &&
    decide (0 ≤ p.2) && decide (p.2 ≤ 10)) ||
  ((decide (p.2 = 0) || decide (p.2 = 10)) &&
    decide (0 ≤ p.1) && decide (p.1 ≤ 10))

/-- The shapely geometry of the 2D region built from the square with corners
`(0,0),(0,10),(10,10),(10,0)`: the polygon (interior membership), whose
boundary is the square ring (membership of the closed curve), whose boundary
in turn is empty. -/
def squareGeom : Geom := .node squareInteriorB (.node squareRingB .empty)

example : contains_point squareGeom (5, 5) true = true := by decide
example : contains_point squareGeom (5, 5) false = true := by decide
example : contains_point squareGeom (0, 0) true = true := by decide
example : contains_point squareGeom (0, 0) false = false := by decide

open Classical

/-- numpy default relative tolerance of `np.isclose`. -/
noncomputable def np_rtol : ℝ := 1 / 100000

/-- numpy default absolute tolerance of `np.isclose`. -/
noncomputable def np_atol : ℝ := 1 / 100000000

/-- `np.isclose(a, b)` with default tolerances, in exact arithmetic:
`|a - b| <= atol + rtol * |b|`. -/
def np_isclose (a b : ℝ) : Prop := |a - b| ≤ np_atol + np_rtol * |b|

/-- The Euclidean norm `np.sqrt(np.sum(v ** 2))` of a 2D vector. -/
noncomputable def vecNorm (v : ℝ × ℝ) : ℝ := Real.sqrt (v.1 ^ 2 + v.2 ^ 2)

/-- `BaseRegionOfInterest.compute_approach_vector` (roi/base.py lines
342-384) for a single query point.  The external collaborator
`shapely.shortest_line(Point(point), region_or_boundary)` supplies the
endpoint on the region, passed here as `nearest` (the caller chooses the
region or its boundary according to `boundary_only`).  The displacement is
`nearest - point`; with `unit=True` it is divided by its norm unless
`np.isclose(norm, 0.0)` holds, in which case it is returned unnormalised. -/
noncomputable def compute_approach_vector (point nearest : ℝ × ℝ)
    (unitFlag : Bool) : ℝ × ℝ :=
  let d : ℝ × ℝ := (nearest.1 - point.1, nearest.2 - point.2)
  if unitFlag then
    let norm := vecNorm d
    if np_isclose norm 0 then d else (d.1 / norm, d.2 / norm)
  else d

/-- The nearest point of the filled square `[0,10] x [0,10]` (the polygon with
corners `(0,0),(0,10),(10,10),(10,0)`) to an arbitrary query point - the value
`shapely.shortest_line(Point(p), square).coords[1]` returns for this region:
each coordinate is clamped to `[0, 10]`. -/
noncomputable def squareNearest (p : ℝ × ℝ) : ℝ × ℝ :=
  (max 0 (min p.1 10), max 0 (min p.2 10))

/-- `np.arctan2 y x`: the angle in `(-pi, pi]` of the point `(x, y)`, with
`atan2 0 0 = 0` as in numpy (signed floating-point zeros do not exist in the
exact real model). -/
noncomputable def atan2 (y x : ℝ) : ℝ :=
  if 0 < x then Real.arctan (y / x)
  else if x < 0 ∧ 0 ≤ y then Real.arctan (y / x) + Real.pi
  else if x < 0 ∧ y < 0 then Real.arctan (y / x) - Real.pi
  else if x = 0 ∧ 0 < y then Real.pi / 2
  else if x = 0 ∧ y < 0 then -(Real.pi / 2)
  else 0

/-- The 2D cross product (z-component of the wedge) of two planar vectors. -/
def cross2 (a b : ℝ × ℝ) : ℝ := a.1 * b.2 - a.2 * b.1

/-- The dot product of two planar vectors. -/
def dot2 (a b : ℝ × ℝ) : ℝ := a.1 * b.1 + a.2 * b.2

/-- Modelled from the spec: `compute_signed_angle_2d` lives in
`movement/utils/vector.py`, which is not among the provided sources.  Per the
spec (section 4.3) it returns the signed radian angle between two vectors,
"positive = counter-clockwise from left operand to right operand", where
`v_as_left_operand` selects the second argument as the left operand.  The
counter-clockwise angle from `l` to `r` is `atan2 (cross l r) (dot l r)`. -/
noncomputable def compute_signed_angle_2d (u v : ℝ × ℝ)
    (v_as_left_operand : Bool) : ℝ :=
  if v_as_left_operand then atan2 (cross2 v u) (dot2 v u)
  else atan2 (cross2 u v) (dot2 u v)

/-- The approach vector used by `compute_allocentric_angle` at time `t`:
`_vector_from_centroid_of_keypoints` reduces, for a fixed region and keypoint
centroid, to `compute_approach_vector` with `unit=False` applied to the
centroid position at each time point.  `pos` is the centroid trajectory and
`nearest` the region's nearest-point map (for the region or for its boundary,
according to `boundary_only`). -/
noncomputable def approachAt (nearest : ℝ × ℝ → ℝ × ℝ) (pos : ℕ → ℝ × ℝ)
    (t : ℕ) : ℝ × ℝ :=
  compute_approach_vector (pos t) (nearest (pos t)) false

/-- `BaseRegionOfInterest.compute_allocentric_angle` (roi/base.py lines
386-467): translate `angle_rotates` into `ref_as_left_operand` (raising
`ValueError` on any other string), compute the approach vector at every time
point, take the signed angle against `reference_vector`, and convert to
degrees unless `in_radians`. -/
noncomputable def compute_allocentric_angle (nearest : ℝ × ℝ → ℝ × ℝ)
    (pos : ℕ → ℝ × ℝ) (angle_rotates : String) (in_radians : Bool)
    (reference_vector : ℝ × ℝ) : Except PyErr (ℕ → ℝ) :=
  if angle_rotates = "ref to approach" then
    .ok fun t =>
      let angle := compute_signed_angle_2d (approachAt nearest pos t)
        reference_vector true
      if in_radians then angle else angle * (180 / Real.pi)
  else if angle_rotates = "approach to ref" then
    .ok fun t =>
      let angle := compute_signed_angle_2d (approachAt nearest pos t)
        reference_vector false
      if in_radians then angle else angle * (180 / Real.pi)
  else
    .error (.valueError ("Unknown angle convention: " ++ angle_rotates))

/-- The angle value returned by `compute_allocentric_angle` at time `t`
(`0` in the error case, which the theorems rule out separately). -/
noncomputable def alloResultAt (nearest : ℝ × ℝ → ℝ × ℝ) (pos : ℕ → ℝ × ℝ)
    (angle_rotates : String) (in_radians : Bool) (reference_vector : ℝ × ℝ)
    (t : ℕ) : ℝ :=
  match compute_allocentric_angle nearest pos angle_rotates in_radians
      reference_vector with
  | .ok f => f t
  | .error _ => 0

/-- Two planar vectors are anti-parallel when their cross product vanishes
and their dot product is negative (signed angle exactly `pi`). -/
def antiparallelVec (a b : ℝ × ℝ) : Prop := cross2 a b = 0 ∧ dot2 a b < 0

lemma containsLoop_eq (p : ℚ × ℚ) (g : Geom) :
    ∀ acc, containsLoop p g acc = (acc || hierarchyContains (geomBoundary g) p) := by
  induction g with
  | empty => intro acc; simp [containsLoop, geomBoundary, hierarchyContains]
  | node c b ih =>
      intro acc
      cases b with
      | empty => simp [containsLoop, geomBoundary, hierarchyContains]
      | node c2 b2 =>
          simp only [containsLoop, geomBoundary]
          rw [ih]
          simp [geomBoundary, hierarchyContains, Bool.or_assoc]

/-- Claim C8: for the 2D region built from the square with corners
(0,0),(0,10),(10,10),(10,0), `contains_point((5,5))` is true with either
`include_boundary` setting, and `contains_point((0,0))` is true exactly when
`include_boundary=True`; moreover, for every geometry, boundary inclusion is
the union of containment over the levels of the boundary hierarchy, iterated
until the boundary is empty. -/
theorem C8_square_contains_point :
    contains_point squareGeom (5, 5) true = true ∧
    contains_point squareGeom (5, 5) false = true ∧
    contains_point squareGeom (0, 0) true = true ∧
    contains_point squareGeom (0, 0) false = false ∧
    ∀ (g : Geom) (p : ℚ × ℚ),
      contains_point g p true
        = (geomContains g p || hierarchyContains (geomBoundary g) p) := by
  refine ⟨by decide, by decide, by decide, by decide, ?_⟩
  intro g p
  simp [contains_point, containsLoop_eq]

/-- Claim C7: region construction succeeds only when `points` has at least
`dimensions + 1` entries and `dimensions` is 1 or 2; a closed 1D region with
fewer than 3 points fails with a `ValueError`, and with exactly 2 points the
message states that a loop cannot be formed from a single line segment. -/
theorem C7_roi_construction_contract :
    (∀ (pts : List (ℚ × ℚ)) (dims : Nat) (closed : Bool)
        (holes : List (List (ℚ × ℚ))) (nm : Option String) (r : RoI),
      roi_init pts dims closed holes nm = .ok r →
        dims + 1 ≤ pts.length ∧ (dims = 1 ∨ dims = 2)) ∧
    (∀ (pts : List (ℚ × ℚ)) (nm : Option String),
      pts.length < 3 →
        ∃ m, roi_init pts 1 true [] nm = .error (.valueError m)) ∧
    (∀ (pts : List (ℚ × ℚ)) (nm : Option String),
      pts.length = 2 →
        roi_init pts 1 true [] nm
          = .error (.valueError "Cannot create a loop from a single line segment.")) := by
  refine ⟨?_, ?_, ?_⟩
  · intro pts dims closed holes nm r h
    simp only [roi_init] at h
    split at h
    · exact absurd h (by simp)
    · split at h
      · exact absurd h (by simp)
      · next h1 h2 =>
          push_neg at h1
          constructor
          · omega
          · rcases not_or.mp h2 with ⟨hl, hr⟩
            omega
  · intro pts nm hlen
    by_cases h2 : pts.length < 2
    · rw [roi_init, if_pos (show pts.length < 1 + 1 by omega)]
      exact ⟨_, rfl⟩
    · have hlen2 : pts.length = 2 := by omega
      refine ⟨"Cannot create a loop from a single line segment.", ?_⟩
      simp [roi_init, hlen2]
  · intro pts nm hlen
    simp [roi_init, hlen]

/-- Claim C10: for every successfully constructed region, `name` returns
"Un-named region" when no name or the empty string was supplied, and returns
any non-empty supplied name unchanged. -/
theorem C10_region_name_default :
    ∀ (pts : List (ℚ × ℚ)) (dims : Nat) (closed : Bool)
      (holes : List (List (ℚ × ℚ))) (nm : Option String) (r : RoI),
      roi_init pts dims closed holes nm = .ok r →
        ((nm = none ∨ nm = some "") → r.name = "Un-named region") ∧
        (∀ s : String, nm = some s → s ≠ "" → r.name = s) := by
  intro pts dims closed holes nm r h
  have hname : r.nameOpt = nm := by
    simp only [roi_init] at h
    split at h
    · exact absurd h (by simp)
    · split at h
      · exact absurd h (by simp)
      · split at h
        · exact absurd h (by simp)
        · split at h
          · cases h; rfl
          · cases h; rfl
  constructor
  · rintro (hn | hn) <;>
      simp [RoI.name, hname, hn, default_region_name, String.isEmpty]
  · intro s hs hne
    have : ¬ s.isEmpty := by
      simpa [String.isEmpty_iff] using hne
    simp [RoI.name, hname, hs, this]

/-- Claim C7 witness: the construction contract evaluated on the square (a
successful construction) and on a 2-point closed 1D region (the loop
failure). -/
theorem C7_witness :
    (2 + 1 ≤ ([(0, 0), (0, 10), (10, 10), (10, 0)] : List (ℚ × ℚ)).length ∧
      ((2 : Nat) = 1 ∨ (2 : Nat) = 2)) ∧
    (∃ m, roi_init [(0, 0), (1, 1)] 1 true [] none
      = .error (.valueError m)) ∧
    roi_init [(0, 0), (1, 1)] 1 true [] none
      = .error (.valueError "Cannot create a loop from a single line segment.") :=
  ⟨C7_roi_construction_contract.1 [(0, 0), (0, 10), (10, 10), (10, 0)] 2 false
      [] none { nameOpt := none
                geometry := .polygon [(0, 0), (0, 10), (10, 10), (10, 0)] [] }
      (by decide),
   C7_roi_construction_contract.2.1 [(0, 0), (1, 1)] none (by decide),
   C7_roi_construction_contract.2.2 [(0, 0), (1, 1)] none (by decide)⟩

/-- Claim C10 witness: a region constructed without a name reports the
default name, and a region constructed with the non-empty name "arena"
reports "arena". -/
theorem C10_witness :
    (RoI.mk none (.polygon [(0, 0), (0, 10), (10, 10), (10, 0)] [])).name
        = "Un-named region" ∧
    (RoI.mk (some "arena") (.polygon [(0, 0), (0, 10), (10, 10), (10, 0)] [])).name
        = "arena" :=
  ⟨(C10_region_name_default [(0, 0), (0, 10), (10, 10), (10, 0)] 2 false []
      none _ (by decide)).1 (Or.inl rfl),
   (C10_region_name_default [(0, 0), (0, 10), (10, 10), (10, 0)] 2 false []
      (some "arena") _ (by decide)).2 "arena" rfl (by decide)⟩

/-- Otherwise-valid keyword arguments for `validate_poses`: a float position
array of shape `(F, n, K, 2)` and defaults everywhere else, with a chosen
`fps` argument. -/
def stdPosesArgs (F n K : Nat) (fps : PyFps) : PosesArgs :=
  { position_array := .ndarray { shape := [F, n, K, 2], dtype := "float64" }
    confidence_array := none
    individual_names := .noneN
    keypoint_names := .noneN
    fps := fps
    source_software := none }

/-- Otherwise-valid keyword arguments for `validate_bboxes` with a chosen
`fps` argument. -/
def stdBboxesArgs (fps : PyFps) : BboxesArgs :=
  { position_array := .ndarray { shape := [1, 1, 2], dtype := "float64" }
    shape_array := .ndarray { shape := [1, 1, 2], dtype := "float64" }
    confidence_array := none
    individual_names := .iterN ["id_1"]
    fps := fps
    source_software := none }

/-- Claim C1 (amended): a convertible non-positive `fps` is reset to `None`
and validation proceeds normally, for both `validate_poses` and
`validate_bboxes`.  (A non-convertible `fps` instead raises - see the
counterexample.) -/
theorem C1_nonpositive_fps_reset (x : ℚ) (hx : x ≤ 0) :
    (∀ F n K : Nat,
      (validate_poses (stdPosesArgs F n K (.convertible x))).map
          ValidPosesDataset.fps = .ok none) ∧
    (validate_bboxes (stdBboxesArgs (.convertible x))).map
        ValidBboxesDataset.fps = .ok none := by
  constructor
  · intro F n K
    simp [validate_poses, stdPosesArgs, list_of_str, fps_converter,
      set_fps_to_none_if_invalid, hx, validate_position_array,
      ensure_type_ndarray, validate_confidence_array,
      validate_individual_names_poses, validate_list_length,
      Except.map, Except.bind, bind]
  · simp [validate_bboxes, stdBboxesArgs, list_of_str, fps_converter,
      set_fps_to_none_if_invalid, hx, validate_position_and_shape_arrays,
      ensure_type_ndarray, validate_confidence_array,
      validate_individual_names_bboxes, validate_list_length,
      check_ID_str_and_extract_int, Except.map, Except.bind, bind]

/-- Claim C1 witness: `fps = -5` is reset to `None` while validation
succeeds, for both validators. -/
theorem C1_witness :
    ((-5 : ℚ) ≤ 0 ∧
      (validate_poses (stdPosesArgs 1 1 1 (.convertible (-5)))).map
          ValidPosesDataset.fps = .ok none) ∧
    (validate_bboxes (stdBboxesArgs (.convertible (-5)))).map
        ValidBboxesDataset.fps = .ok none :=
  ⟨⟨by decide, (C1_nonpositive_fps_reset (-5) (by decide)).1 1 1 1⟩,
   (C1_nonpositive_fps_reset (-5) (by decide)).2⟩

/-- Claim C1 counterexample: an `fps` value that `float()` cannot convert
makes validation raise (a conversion `ValueError`), rather than being reset
to `None` - refuting "never an error". -/
theorem C1_counterexample :
    validate_poses (stdPosesArgs 1 1 1 (.nonconvertible "not a number"))
      = .error
          (.valueError "could not convert string to float: not a number") := by
  decide

/-- Otherwise-valid `validate_poses` arguments with
`source_software="LightningPose"`, a float position array of shape
`(F, n, K, 2)` and a chosen `individual_names` argument. -/
def lpArgs (F n K : Nat) (names : PyNames) : PosesArgs :=
  { position_array := .ndarray { shape := [F, n, K, 2], dtype := "float64" }
    confidence_array := none
    individual_names := names
    keypoint_names := .noneN
    fps := .noneF
    source_software := some "LightningPose" }

/-- Claim C2 (amended): with `source_software="LightningPose"`,
`validate_poses` succeeds when exactly one individual name is given or when
names are omitted; any other given count fails with a `ValueError`.  When
names are omitted, `position_array.shape[1]` default names are generated (not
necessarily exactly one). -/
theorem C2_lightningpose_individuals :
    (∀ (F n K : Nat) (l : List String), l.length = 1 →
      ∃ d, validate_poses (lpArgs F n K (.iterN l)) = .ok d ∧
        d.individual_names = l) ∧
    (∀ (F n K : Nat) (l : List String), l.length ≠ 1 →
      ∃ m, validate_poses (lpArgs F n K (.iterN l))
        = .error (.valueError m)) ∧
    (∀ F n K : Nat,
      ∃ d, validate_poses (lpArgs F n K .noneN) = .ok d ∧
        d.individual_names
          = (List.range n).map (fun i => s!"individual_{i}")) := by
  refine ⟨?_, ?_, ?_⟩
  · intro F n K l hl
    refine ⟨{ position_array := { shape := [F, n, K, 2], dtype := "float64" }
              confidence_array := { shape := [F, n, K], dtype := "float32" }
              individual_names := l
              keypoint_names := (List.range K).map (fun i => s!"keypoint_{i}")
              fps := none
              source_software := some "LightningPose" }, ?_, rfl⟩
    simp [validate_poses, lpArgs, list_of_str, fps_converter,
      validate_position_array, ensure_type_ndarray,
      validate_confidence_array, validate_individual_names_poses,
      validate_list_length, hl, Except.bind, bind]
  · intro F n K l hl
    simp [validate_poses, lpArgs, list_of_str, fps_converter,
      validate_position_array, ensure_type_ndarray,
      validate_confidence_array, validate_individual_names_poses,
      validate_list_length, hl, Except.bind, bind]
  · intro F n K
    refine ⟨{ position_array := { shape := [F, n, K, 2], dtype := "float64" }
              confidence_array := { shape := [F, n, K], dtype := "float32" }
              individual_names
                := (List.range n).map (fun i => s!"individual_{i}")
              keypoint_names := (List.range K).map (fun i => s!"keypoint_{i}")
              fps := none
              source_software := some "LightningPose" }, ?_, rfl⟩
    simp [validate_poses, lpArgs, list_of_str, fps_converter,
      validate_position_array, ensure_type_ndarray,
      validate_confidence_array, validate_individual_names_poses,
      validate_list_length, Except.bind, bind]

/-- Claim C2 witness: with LightningPose, the one-name list `["mouse"]` is
accepted and kept, and the two-name list `["a", "b"]` is rejected with a
`ValueError`. -/
theorem C2_witness :
    (∃ d, validate_poses (lpArgs 1 1 1 (.iterN ["mouse"])) = .ok d ∧
      d.individual_names = ["mouse"]) ∧
    (∃ m, validate_poses (lpArgs 1 1 1 (.iterN ["a", "b"]))
      = .error (.valueError m)) :=
  ⟨C2_lightningpose_individuals.1 1 1 1 ["mouse"] (by decide),
   C2_lightningpose_individuals.2.1 1 1 1 ["a", "b"] (by decide)⟩

/-- Claim C2 counterexample: with LightningPose, omitted names on a position
array with `shape[1] = 2` are defaulted to TWO generated names, refuting
"exactly one default individual name is generated". -/
theorem C2_counterexample :
    validate_poses (lpArgs 1 2 1 .noneN)
      = .ok { position_array := { shape := [1, 2, 1, 2], dtype := "float64" }
              confidence_array := { shape := [1, 2, 1], dtype := "float32" }
              individual_names := ["individual_0", "individual_1"]
              keypoint_names := ["keypoint_0"]
              fps := none
              source_software := some "LightningPose" } ∧
    (["individual_0", "individual_1"] : List String).length ≠ 1 := by
  constructor
  · decide
  · decide

/-- `validate_poses` arguments consisting of a chosen position argument and
defaults everywhere else. -/
def posOnlyArgs (p : PyObj) : PosesArgs :=
  { position_array := p
    confidence_array := none
    individual_names := .noneN
    keypoint_names := .noneN
    fps := .noneF
    source_software := none }

/-- Claim C3 (amended): a position array is accepted exactly when it has 4
dimensions and a last axis of size 2 or 3 - the dtype is NOT checked, so
non-floating-point arrays are accepted too; any violation of the rank or
last-axis condition is rejected with a `ValueError`. -/
theorem C3_position_array_checks :
    (∀ a : NDArray,
      validate_position_array (.ndarray a) = .ok a ↔
        (a.shape.length = 4 ∧
          (a.shape.getLast? = some 2 ∨ a.shape.getLast? = some 3))) ∧
    (∀ a : NDArray,
      ¬(a.shape.length = 4 ∧
          (a.shape.getLast? = some 2 ∨ a.shape.getLast? = some 3)) →
        ∃ m, validate_position_array (.ndarray a)
          = .error (.valueError m)) ∧
    (∀ a : NDArray,
      (∃ d, validate_poses (posOnlyArgs (.ndarray a)) = .ok d) ↔
        (a.shape.length = 4 ∧
          (a.shape.getLast? = some 2 ∨ a.shape.getLast? = some 3))) := by
  refine ⟨?_, ?_, ?_⟩
  · intro a
    by_cases h1 : a.shape.length = 4
    · by_cases h2 : a.shape.getLast? = some 2 ∨ a.shape.getLast? = some 3
      · simp [validate_position_array, ensure_type_ndarray, h1, h2,
          Except.bind, bind]
      · simp [validate_position_array, ensure_type_ndarray, h1, h2,
          Except.bind, bind]
    · simp [validate_position_array, ensure_type_ndarray, h1,
        Except.bind, bind]
  · intro a h
    by_cases h1 : a.shape.length = 4
    · have h2 : ¬(a.shape.getLast? = some 2 ∨ a.shape.getLast? = some 3) := by
        tauto
      simp [validate_position_array, ensure_type_ndarray, h1, h2,
        Except.bind, bind]
    · simp [validate_position_array, ensure_type_ndarray, h1,
        Except.bind, bind]
  · intro a
    by_cases h1 : a.shape.length = 4
    · by_cases h2 : a.shape.getLast? = some 2 ∨ a.shape.getLast? = some 3
      · simp [validate_poses, posOnlyArgs, list_of_str, fps_converter,
          validate_position_array, ensure_type_ndarray,
          validate_confidence_array, validate_individual_names_poses,
          validate_list_length, h1, h2, Except.bind, bind]
      · simp [validate_poses, posOnlyArgs, list_of_str, fps_converter,
          validate_position_array, ensure_type_ndarray,
          validate_confidence_array, validate_individual_names_poses,
          validate_list_length, h1, h2, Except.bind, bind]
    · simp [validate_poses, posOnlyArgs, list_of_str, fps_converter,
        validate_position_array, ensure_type_ndarray,
        validate_confidence_array, validate_individual_names_poses,
        validate_list_length, h1, Except.bind, bind]

/-- Claim C3 witness: a 2-dimensional array is rejected with a `ValueError`,
and a float32 array of shape (1,1,1,3) is accepted. -/
theorem C3_witness :
    (∃ m, validate_position_array
        (.ndarray { shape := [1, 2], dtype := "float64" })
      = .error (.valueError m)) ∧
    validate_position_array
        (.ndarray { shape := [1, 1, 1, 3], dtype := "float32" })
      = .ok { shape := [1, 1, 1, 3], dtype := "float32" } :=
  ⟨C3_position_array_checks.2.1 { shape := [1, 2], dtype := "float64" }
      (by decide),
   (C3_position_array_checks.1 { shape := [1, 1, 1, 3], dtype := "float32" }).mpr
      (by decide)⟩

/-- Claim C3 counterexample: an integer-dtype position array of shape
(1,1,1,2) is ACCEPTED by `validate_poses`, refuting "accepted only if
floating-point". -/
theorem C3_counterexample :
    validate_poses (posOnlyArgs
        (.ndarray { shape := [1, 1, 1, 2], dtype := "int64" }))
      = .ok { position_array := { shape := [1, 1, 1, 2], dtype := "int64" }
              confidence_array := { shape := [1, 1, 1], dtype := "float32" }
              individual_names := ["individual_0"]
              keypoint_names := ["keypoint_0"]
              fps := none
              source_software := none } := by
  decide

/-- Whether a validation outcome is a raised `TypeError`. -/
def errorKindIsTypeError {α : Type} : Except PyErr α → Bool
  | .error (.typeError _) => true
  | _ => false

/-- Claim C4 (amended): a non-array position input, and a non-iterable
non-string name input, each make `validate_poses` fail immediately - but with
a `ValueError`, not a `TypeError` (both `_ensure_type_ndarray` and
`_list_of_str` raise `ValueError`). -/
theorem C4_nonarray_and_noniterable_raise_value_error :
    (∀ (d : String) (conf : Option PyObj) (names kp : PyNames)
        (fps : PyFps) (ss : Option String),
      ∃ m, validate_poses
          { position_array := .other d, confidence_array := conf
            individual_names := names, keypoint_names := kp
            fps := fps, source_software := ss }
        = .error (.valueError m)) ∧
    (∀ (p : PyObj) (conf : Option PyObj) (d : String) (kp : PyNames)
        (fps : PyFps) (ss : Option String),
      ∃ m, validate_poses
          { position_array := p, confidence_array := conf
            individual_names := .otherN d, keypoint_names := kp
            fps := fps, source_software := ss }
        = .error (.valueError m)) := by
  constructor
  · intro d conf names kp fps ss
    cases names <;> cases kp <;> cases fps <;>
      simp [validate_poses, list_of_str, fps_converter,
        set_fps_to_none_if_invalid, validate_position_array,
        ensure_type_ndarray, Except.bind, bind]
  · intro p conf d kp fps ss
    simp [validate_poses, list_of_str, Except.bind, bind]

/-- Claim C4 counterexample: passing a plain Python `int` as the position
array raises a `ValueError` (with the `_ensure_type_ndarray` message), not a
`TypeError` - refuting the claimed error kind. -/
theorem C4_counterexample :
    validate_poses (posOnlyArgs (.other "int"))
      = .error (.valueError "Expected a numpy array, but got int.") ∧
    errorKindIsTypeError (validate_poses (posOnlyArgs (.other "int")))
      = false := by
  constructor
  · decide
  · decide

/-- `validate_bboxes` arguments: float position/shape arrays of shape
`(F, n, 2)`, defaults elsewhere, and a chosen `individual_names` argument. -/
def bbArgs (F n : Nat) (names : PyNames) : BboxesArgs :=
  { position_array := .ndarray { shape := [F, n, 2], dtype := "float64" }
    shape_array := .ndarray { shape := [F, n, 2], dtype := "float64" }
    confidence_array := none
    individual_names := names
    fps := .noneF
    source_software := none }

lemma length_ne_dedup_iff_not_nodup (l : List String) :
    l.length ≠ l.dedup.length ↔ ¬ l.Nodup := by
  constructor
  · intro h hnd
    exact h (by rw [List.dedup_eq_self.mpr hnd])
  · intro hnd h
    apply hnd
    have hd := List.Sublist.eq_of_length (List.dedup_sublist l) h.symm
    rw [← hd]
    exact List.nodup_dedup l

/-- Claim C9: with otherwise-valid inputs, `validate_bboxes` fails with a
`ValueError` exactly when the supplied individual names have a count other
than `position_array.shape[1]`, or are not pairwise unique, or some name does
not fully match `id_<digits>`; "id_01x" and "box_1" fail the pattern while
"id_3" matches and extracts the integer 3. -/
theorem C9_bboxes_individual_names :
    check_ID_str_and_extract_int "id_3" = some 3 ∧
    check_ID_str_and_extract_int "id_01x" = none ∧
    check_ID_str_and_extract_int "box_1" = none ∧
    ∀ (F n : Nat) (l : List String),
      ((∃ m, validate_bboxes (bbArgs F n (.iterN l))
          = .error (.valueError m)) ↔
        (l.length ≠ n ∨ ¬ l.Nodup ∨
          l.any (fun s => (check_ID_str_and_extract_int s).isNone) = true)) ∧
      (l.length = n → l.Nodup →
        l.any (fun s => (check_ID_str_and_extract_int s).isNone) = false →
        ∃ d, validate_bboxes (bbArgs F n (.iterN l)) = .ok d) := by
  refine ⟨by decide, by decide, by decide, ?_⟩
  intro F n l
  by_cases hn : l.length = n
  · by_cases hu : l.Nodup
    · have hud : l.length = l.dedup.length := by
        rw [List.dedup_eq_self.mpr hu]
      by_cases hb :
          l.any (fun s => (check_ID_str_and_extract_int s).isNone) = true
      · constructor
        · simp [validate_bboxes, bbArgs, list_of_str, fps_converter,
            validate_position_and_shape_arrays, ensure_type_ndarray,
            validate_confidence_array, validate_individual_names_bboxes,
            validate_list_length, hn, hu, hb, ← hud, Except.bind, bind]
        · intro _ _ hb2
          rw [hb] at hb2
          cases hb2
      · constructor
        · simp [validate_bboxes, bbArgs, list_of_str, fps_converter,
            validate_position_and_shape_arrays, ensure_type_ndarray,
            validate_confidence_array, validate_individual_names_bboxes,
            validate_list_length, hn, hu, hb, ← hud, Except.bind, bind]
        · intro _ _ _
          simp [validate_bboxes, bbArgs, list_of_str, fps_converter,
            validate_position_and_shape_arrays, ensure_type_ndarray,
            validate_confidence_array, validate_individual_names_bboxes,
            validate_list_length, hn, hb, ← hud, Except.bind, bind]
    · have hud : l.length ≠ l.dedup.length :=
        (length_ne_dedup_iff_not_nodup l).mpr hu
      have hud2 : ¬ (n = l.dedup.length) := by
        rw [← hn]; exact hud
      constructor
      · simp [validate_bboxes, bbArgs, list_of_str, fps_converter,
          validate_position_and_shape_arrays, ensure_type_ndarray,
          validate_confidence_array, validate_individual_names_bboxes,
          validate_list_length, hn, hu, hud, hud2, Except.bind, bind]
      · intro _ hu2
        exact absurd hu2 hu
  · constructor
    · simp [validate_bboxes, bbArgs, list_of_str, fps_converter,
        validate_position_and_shape_arrays, ensure_type_ndarray,
        validate_confidence_array, validate_individual_names_bboxes,
        validate_list_length, hn, Except.bind, bind]
    · intro hn2
      exact absurd hn2 hn

/-- Claim C9 witness: the unique, well-formed list `["id_1", "id_2"]` of the
right length is accepted, while the duplicated list `["id_1", "id_1"]` is
rejected with a `ValueError`. -/
theorem C9_witness :
    (∃ d, validate_bboxes (bbArgs 1 2 (.iterN ["id_1", "id_2"])) = .ok d) ∧
    (∃ m, validate_bboxes (bbArgs 1 2 (.iterN ["id_1", "id_1"]))
      = .error (.valueError m)) :=
  ⟨((C9_bboxes_individual_names.2.2.2 1 2 ["id_1", "id_2"]).2
      (by decide) (by decide) (by decide)),
   ((C9_bboxes_individual_names.2.2.2 1 2 ["id_1", "id_1"]).1).mpr
      (Or.inr (Or.inl (by decide)))⟩

lemma np_isclose_zero_iff (n : ℝ) (hn : 0 ≤ n) :
    np_isclose n 0 ↔ n ≤ np_atol := by
  rw [np_isclose]
  simp [abs_of_nonneg hn]

/-- Claim C6 (amended): a query point that coincides with its nearest region
point yields the approach vector `(0, 0)` under `unit=True` (no error, no
division by zero); a query point whose distance to its nearest region point
exceeds the `np.isclose` absolute tolerance `1e-8` yields a unit-length
vector.  (Distances in `(0, 1e-8]` are left unnormalised - see the
counterexample.) -/
theorem C6_approach_vector_unit :
    (∀ p : ℝ × ℝ, compute_approach_vector p p true = (0, 0)) ∧
    (∀ point nearest : ℝ × ℝ,
      np_atol < vecNorm (nearest.1 - point.1, nearest.2 - point.2) →
      vecNorm (compute_approach_vector point nearest true) = 1) := by
  constructor
  · intro p
    simp only [compute_approach_vector, sub_self]
    have hz : vecNorm ((0 : ℝ), (0 : ℝ)) = 0 := by
      simp [vecNorm]
    rw [if_pos trivial, hz, if_pos (by norm_num [np_isclose, np_atol, np_rtol])]
  · intro point nearest h
    have hnn : (0 : ℝ) ≤ vecNorm (nearest.1 - point.1, nearest.2 - point.2) :=
      Real.sqrt_nonneg _
    have hpos : (0 : ℝ) < vecNorm (nearest.1 - point.1, nearest.2 - point.2) :=
      lt_of_le_of_lt (by norm_num [np_atol]) h
    have hnotclose :
        ¬ np_isclose (vecNorm (nearest.1 - point.1, nearest.2 - point.2)) 0 := by
      intro hc
      rw [np_isclose_zero_iff _ hnn] at hc
      exact absurd h (not_lt.mpr hc)
    simp only [compute_approach_vector]
    rw [if_pos trivial, if_neg hnotclose]
    have hsq : (vecNorm (nearest.1 - point.1, nearest.2 - point.2)) ^ 2
        = (nearest.1 - point.1) ^ 2 + (nearest.2 - point.2) ^ 2 :=
      Real.sq_sqrt (by positivity)
    rw [vecNorm]
    have hone :
        ((nearest.1 - point.1)
            / vecNorm (nearest.1 - point.1, nearest.2 - point.2)) ^ 2 +
          ((nearest.2 - point.2)
            / vecNorm (nearest.1 - point.1, nearest.2 - point.2)) ^ 2
          = 1 := by
      rw [div_pow, div_pow, div_add_div_same, ← hsq]
      exact div_self (pow_ne_zero 2 (ne_of_gt hpos))
    rw [show (((nearest.1 - point.1)
        / vecNorm (nearest.1 - point.1, nearest.2 - point.2),
        (nearest.2 - point.2)
        / vecNorm (nearest.1 - point.1, nearest.2 - point.2)) : ℝ × ℝ).1
        = (nearest.1 - point.1)
          / vecNorm (nearest.1 - point.1, nearest.2 - point.2) from rfl]
    rw [show (((nearest.1 - point.1)
        / vecNorm (nearest.1 - point.1, nearest.2 - point.2),
        (nearest.2 - point.2)
        / vecNorm (nearest.1 - point.1, nearest.2 - point.2)) : ℝ × ℝ).2
        = (nearest.2 - point.2)
          / vecNorm (nearest.1 - point.1, nearest.2 - point.2) from rfl]
    rw [hone, Real.sqrt_one]

/-- Claim C6 witness: a coincident point maps to `(0, 0)`, and the point
`(0,0)` at distance 5 from its nearest region point `(3,4)` maps to a
unit-length vector. -/
theorem C6_witness :
    compute_approach_vector ((3 : ℝ), (4 : ℝ)) ((3 : ℝ), (4 : ℝ)) true
        = (0, 0) ∧
    vecNorm (compute_approach_vector ((0 : ℝ), (0 : ℝ)) ((3 : ℝ), (4 : ℝ))
        true) = 1 :=
  ⟨C6_approach_vector_unit.1 (3, 4),
   C6_approach_vector_unit.2 (0, 0) (3, 4) (by
      have h5 : vecNorm ((3 : ℝ) - 0, (4 : ℝ) - 0) = 5 := by
        rw [vecNorm,
          show ((3 : ℝ) - 0) ^ 2 + ((4 : ℝ) - 0) ^ 2 = 5 ^ 2 by norm_num,
          Real.sqrt_sq (by norm_num : (0 : ℝ) ≤ 5)]
      rw [h5]
      norm_num [np_atol])⟩

/-- Claim C6 counterexample: the point `(0, -1e-9)` lies at NON-zero distance
`1e-9` from its nearest point `(0, 0)` of the square `[0,10] x [0,10]`, yet
`compute_approach_vector(unit=True)` returns the unnormalised vector
`(0, 1e-9)` of length `1e-9`, not a unit vector - refuting "length 1 for
every point at non-zero distance". -/
theorem C6_counterexample :
    squareNearest (0, -(1 / 1000000000)) = (0, 0) ∧
    ((0 : ℝ), (-(1 / 1000000000) : ℝ)) ≠ ((0 : ℝ), (0 : ℝ)) ∧
    compute_approach_vector (0, -(1 / 1000000000)) (0, 0) true
        = (0, 1 / 1000000000) ∧
    vecNorm (0, 1 / 1000000000) ≠ 1 := by
  have hnorm : vecNorm ((0 : ℝ), (1 / 1000000000 : ℝ)) = 1 / 1000000000 := by
    rw [vecNorm,
      show (0 : ℝ) ^ 2 + (1 / 1000000000 : ℝ) ^ 2
        = (1 / 1000000000 : ℝ) ^ 2 by ring,
      Real.sqrt_sq (by norm_num : (0 : ℝ) ≤ 1 / 1000000000)]
  refine ⟨?_, ?_, ?_, ?_⟩
  · rw [squareNearest]
    norm_num
  · intro h
    have := congrArg Prod.snd h
    norm_num at this
  · simp only [compute_approach_vector]
    rw [if_pos trivial,
      show ((0 : ℝ) - 0, (0 : ℝ) - -(1 / 1000000000))
        = ((0 : ℝ), (1 / 1000000000 : ℝ)) by norm_num,
      hnorm,
      if_pos (by
        rw [np_isclose_zero_iff _ (by norm_num)]
        norm_num [np_atol])]
  · rw [hnorm]
    norm_num

lemma atan2_pos_x (y x : ℝ) (hx : 0 < x) :
    atan2 y x = Real.arctan (y / x) := by
  rw [atan2, if_pos hx]

lemma atan2_neg_x_nonneg_y (y x : ℝ) (hx : x < 0) (hy : 0 ≤ y) :
    atan2 y x = Real.arctan (y / x) + Real.pi := by
  rw [atan2, if_neg (by linarith), if_pos ⟨hx, hy⟩]

lemma atan2_neg_x_neg_y (y x : ℝ) (hx : x < 0) (hy : y < 0) :
    atan2 y x = Real.arctan (y / x) - Real.pi := by
  rw [atan2, if_neg (by linarith),
    if_neg (fun hc => absurd hc.2 (not_le.mpr hy)), if_pos ⟨hx, hy⟩]

lemma atan2_zero_x_pos_y (y : ℝ) (hy : 0 < y) :
    atan2 y 0 = Real.pi / 2 := by
  rw [atan2, if_neg (lt_irrefl 0), if_neg (fun hc => lt_irrefl 0 hc.1),
    if_neg (fun hc => lt_irrefl 0 hc.1), if_pos ⟨rfl, hy⟩]

lemma atan2_zero_x_neg_y (y : ℝ) (hy : y < 0) :
    atan2 y 0 = -(Real.pi / 2) := by
  rw [atan2, if_neg (lt_irrefl 0), if_neg (fun hc => lt_irrefl 0 hc.1),
    if_neg (fun hc => lt_irrefl 0 hc.1),
    if_neg (fun hc => absurd hc.2 (not_lt.mpr (le_of_lt hy))),
    if_pos ⟨rfl, hy⟩]

lemma atan2_zero_zero : atan2 0 0 = 0 := by
  rw [atan2, if_neg (lt_irrefl 0), if_neg (fun hc => lt_irrefl 0 hc.1),
    if_neg (fun hc => lt_irrefl 0 hc.1),
    if_neg (fun hc => lt_irrefl 0 hc.2),
    if_neg (fun hc => lt_irrefl 0 hc.2)]

/-- Negating the first argument of `atan2` negates the angle, except on the
negative x-axis (`y = 0`, `x < 0`), where both signs give `pi`. -/
lemma atan2_neg_left (y x : ℝ) (h : ¬(y = 0 ∧ x < 0)) :
    atan2 (-y) x = - atan2 y x := by
  rcases lt_trichotomy x 0 with hx | hx | hx
  · have hy : y ≠ 0 := fun hy0 => h ⟨hy0, hx⟩
    rcases lt_trichotomy y 0 with hyn | hy0 | hyp
    · rw [atan2_neg_x_nonneg_y (-y) x hx (by linarith),
        atan2_neg_x_neg_y y x hx hyn, neg_div, Real.arctan_neg]
      ring
    · exact absurd hy0 hy
    · rw [atan2_neg_x_neg_y (-y) x hx (by linarith),
        atan2_neg_x_nonneg_y y x hx (le_of_lt hyp), neg_div, Real.arctan_neg]
      ring
  · subst hx
    rcases lt_trichotomy y 0 with hyn | hy0 | hyp
    · rw [atan2_zero_x_pos_y (-y) (by linarith), atan2_zero_x_neg_y y hyn]
      ring
    · subst hy0
      rw [neg_zero, atan2_zero_zero]
      ring
    · rw [atan2_zero_x_neg_y (-y) (by linarith), atan2_zero_x_pos_y y hyp]
  · rw [atan2_pos_x (-y) x hx, atan2_pos_x y x hx, neg_div, Real.arctan_neg]

lemma cross2_swap (u v : ℝ × ℝ) : cross2 v u = - cross2 u v := by
  rw [cross2, cross2]; ring

lemma dot2_swap (u v : ℝ × ℝ) : dot2 v u = dot2 u v := by
  rw [dot2, dot2]; ring

/-- Swapping which operand is "left" negates the signed angle, except for
anti-parallel vectors. -/
lemma signed_angle_swap (u v : ℝ × ℝ) (h : ¬ antiparallelVec u v) :
    compute_signed_angle_2d u v true = - compute_signed_angle_2d u v false := by
  show atan2 (cross2 v u) (dot2 v u) = - atan2 (cross2 u v) (dot2 u v)
  rw [cross2_swap, dot2_swap]
  exact atan2_neg_left (cross2 u v) (dot2 u v) h

/-- For anti-parallel vectors both operand orders give the angle `pi`. -/
lemma signed_angle_antiparallel (u v : ℝ × ℝ) (h : antiparallelVec u v) :
    compute_signed_angle_2d u v true = Real.pi ∧
    compute_signed_angle_2d u v false = Real.pi := by
  obtain ⟨hc, hd⟩ := h
  have hc2 : cross2 v u = 0 := by rw [cross2_swap, hc, neg_zero]
  have hd2 : dot2 v u < 0 := by rw [dot2_swap]; exact hd
  constructor
  · show atan2 (cross2 v u) (dot2 v u) = Real.pi
    rw [hc2, atan2_neg_x_nonneg_y 0 _ hd2 le_rfl, zero_div,
      Real.arctan_zero, zero_add]
  · show atan2 (cross2 u v) (dot2 u v) = Real.pi
    rw [hc, atan2_neg_x_nonneg_y 0 _ hd le_rfl, zero_div,
      Real.arctan_zero, zero_add]

lemma alloResultAt_approach_to_ref (nearest : ℝ × ℝ → ℝ × ℝ)
    (pos : ℕ → ℝ × ℝ) (inr : Bool) (ref : ℝ × ℝ) (t : ℕ) :
    alloResultAt nearest pos "approach to ref" inr ref t
      = (if inr then
          compute_signed_angle_2d (approachAt nearest pos t) ref false
        else
          compute_signed_angle_2d (approachAt nearest pos t) ref false
            * (180 / Real.pi)) := by
  rw [alloResultAt, compute_allocentric_angle,
    if_neg (show ¬("approach to ref" = "ref to approach") by decide),
    if_pos rfl]

lemma alloResultAt_ref_to_approach (nearest : ℝ × ℝ → ℝ × ℝ)
    (pos : ℕ → ℝ × ℝ) (inr : Bool) (ref : ℝ × ℝ) (t : ℕ) :
    alloResultAt nearest pos "ref to approach" inr ref t
      = (if inr then
          compute_signed_angle_2d (approachAt nearest pos t) ref true
        else
          compute_signed_angle_2d (approachAt nearest pos t) ref true
            * (180 / Real.pi)) := by
  rw [alloResultAt, compute_allocentric_angle, if_pos rfl]

lemma pi_times_deg : Real.pi * (180 / Real.pi) = 180 := by
  rw [mul_comm]
  exact div_mul_cancel₀ 180 Real.pi_ne_zero

/-- Claim C5 (amended): `compute_allocentric_angle` with
`angle_rotates="approach to ref"` returns, at every time point where the
approach vector is not exactly anti-parallel to the reference vector, the
negative of the `"ref to approach"` angle on the same inputs; at anti-parallel
time points both conventions return `pi` (180 degrees); any other
`angle_rotates` value fails with a `ValueError`. -/
theorem C5_allocentric_angle_convention :
    (∀ (nearest : ℝ × ℝ → ℝ × ℝ) (pos : ℕ → ℝ × ℝ) (inr : Bool)
        (ref : ℝ × ℝ) (s : String),
      s ≠ "ref to approach" → s ≠ "approach to ref" →
        compute_allocentric_angle nearest pos s inr ref
          = .error (.valueError ("Unknown angle convention: " ++ s))) ∧
    (∀ (nearest : ℝ × ℝ → ℝ × ℝ) (pos : ℕ → ℝ × ℝ) (inr : Bool)
        (ref : ℝ × ℝ) (t : ℕ),
      ¬ antiparallelVec (approachAt nearest pos t) ref →
        alloResultAt nearest pos "approach to ref" inr ref t
          = - alloResultAt nearest pos "ref to approach" inr ref t) ∧
    (∀ (nearest : ℝ × ℝ → ℝ × ℝ) (pos : ℕ → ℝ × ℝ) (inr : Bool)
        (ref : ℝ × ℝ) (t : ℕ),
      antiparallelVec (approachAt nearest pos t) ref →
        alloResultAt nearest pos "approach to ref" inr ref t
            = (if inr then Real.pi else 180) ∧
        alloResultAt nearest pos "ref to approach" inr ref t
            = (if inr then Real.pi else 180)) := by
  refine ⟨?_, ?_, ?_⟩
  · intro nearest pos inr ref s h1 h2
    rw [compute_allocentric_angle, if_neg h1, if_neg h2]
  · intro nearest pos inr ref t h
    rw [alloResultAt_approach_to_ref, alloResultAt_ref_to_approach,
      signed_angle_swap _ _ h]
    cases inr with
    | true => simp
    | false => simp
  · intro nearest pos inr ref t h
    obtain ⟨h1, h2⟩ := signed_angle_antiparallel _ _ h
    rw [alloResultAt_approach_to_ref, alloResultAt_ref_to_approach, h1, h2]
    cases inr with
    | true => simp
    | false => simp [pi_times_deg]

/-- Claim C5 witness: an unknown convention string raises, and at a
non-anti-parallel configuration the two conventions give opposite angles. -/
theorem C5_witness :
    compute_allocentric_angle (fun q => q) (fun _ => ((0 : ℝ), 0)) "bogus"
        false (1, 0)
      = .error (.valueError ("Unknown angle convention: " ++ "bogus")) ∧
    alloResultAt (fun _ => ((0 : ℝ), 0)) (fun _ => ((-1 : ℝ), -1))
        "approach to ref" true (1, 0) 0
      = - alloResultAt (fun _ => ((0 : ℝ), 0)) (fun _ => ((-1 : ℝ), -1))
        "ref to approach" true (1, 0) 0 := by
  have happ : approachAt (fun _ => ((0 : ℝ), 0)) (fun _ => ((-1 : ℝ), -1)) 0
      = (1, 1) := by
    show ((0 : ℝ) - (-1), (0 : ℝ) - (-1)) = ((1 : ℝ), 1)
    norm_num
  have hnot : ¬ antiparallelVec
      (approachAt (fun _ => ((0 : ℝ), 0)) (fun _ => ((-1 : ℝ), -1)) 0)
      ((1 : ℝ), 0) := by
    rw [happ]
    rintro ⟨hc, -⟩
    rw [cross2] at hc
    norm_num at hc
  exact ⟨C5_allocentric_angle_convention.1 (fun q => q) (fun _ => (0, 0))
      false (1, 0) "bogus" (by decide) (by decide),
    C5_allocentric_angle_convention.2.1 _ _ true (1, 0) 0 hnot⟩

/-- Claim C5 counterexample: for the square region and the fixed position
`(12, 5)` (approach vector `(-2, 0)`, anti-parallel to the default reference
`(1, 0)`), BOTH conventions return 180 degrees, refuting "negatives of each
other at every time point". -/
theorem C5_counterexample :
    alloResultAt squareNearest (fun _ => ((12 : ℝ), 5)) "approach to ref"
        false (1, 0) 0 = 180 ∧
    alloResultAt squareNearest (fun _ => ((12 : ℝ), 5)) "ref to approach"
        false (1, 0) 0 = 180 ∧
    ((180 : ℝ) ≠ -(180 : ℝ)) := by
  have hsn : squareNearest ((12 : ℝ), 5) = (10, 5) := by
    rw [squareNearest,
      show min (12 : ℝ) 10 = 10 from min_eq_right (by norm_num),
      show max (0 : ℝ) 10 = 10 from max_eq_right (by norm_num),
      show min (5 : ℝ) 10 = 5 from min_eq_left (by norm_num),
      show max (0 : ℝ) 5 = 5 from max_eq_right (by norm_num)]
  have happ : approachAt squareNearest (fun _ => ((12 : ℝ), 5)) 0
      = (-2, 0) := by
    show compute_approach_vector ((12 : ℝ), 5) (squareNearest ((12 : ℝ), 5))
        false = (-2, 0)
    rw [hsn]
    show ((10 : ℝ) - 12, (5 : ℝ) - 5) = ((-2 : ℝ), 0)
    norm_num
  have hpar : antiparallelVec
      (approachAt squareNearest (fun _ => ((12 : ℝ), 5)) 0) ((1 : ℝ), 0) := by
    rw [happ]
    exact ⟨by norm_num [cross2], by norm_num [dot2]⟩
  obtain ⟨h1, h2⟩ := signed_angle_antiparallel _ _ hpar
  refine ⟨?_, ?_, by norm_num⟩
  · rw [alloResultAt_approach_to_ref]
    simp [h2, pi_times_deg]
  · rw [alloResultAt_ref_to_approach]
    simp [h1, pi_times_deg]
